import Mathlib

/-!
Verification development for the currency-calculator-hub frontend core:
endpoint resolution (`src/config/env.js`, `src/services/api.js`), the HTTP
client error normalization (`httpGet`), the TTL cache and rates controller
(`src/hooks/useDailyRates.js`), and the conversion arithmetic
(`src/utils/currency.js`).

JavaScript numbers are modelled by `JsNum`: exact rationals for the finite
values plus the three non-finite values NaN, +Infinity and -Infinity that
the code's `Number.isFinite` guards and divisions can produce.  Objects
that may be absent are `Option`s; JS string maps are association lists.
-/

/-- JavaScript number: a finite value (modelled exactly as a rational) or
one of the non-finite values NaN, Infinity, -Infinity. -/
inductive JsNum where
  | num (q : ℚ)
  | nan
  | inf
  | neginf
deriving DecidableEq

namespace JsNum

/-- Model of JavaScript `Number.isFinite`. -/
def isFinite : JsNum → Bool
  | num _ => true
  | _ => false

/-- JavaScript division `a / b` on numbers (no negative zero: the model's
only zero is +0, so finite/0 follows the sign of the numerator). -/
def jdiv : JsNum → JsNum → JsNum
  | num a, num b =>
      if b = 0 then
        if 0 < a then inf else if a < 0 then neginf else nan
      else num (a / b)
  | nan, _ => nan
  | _, nan => nan
  | inf, num _ => inf
  | neginf, num _ => neginf
  | inf, inf => nan
  | inf, neginf => nan
  | neginf, inf => nan
  | neginf, neginf => nan
  | num _, inf => num 0
  | num _, neginf => num 0

/-- JavaScript multiplication `a * b` on numbers. -/
def jmul : JsNum → JsNum → JsNum
  | num a, num b => num (a * b)
  | nan, _ => nan
  | _, nan => nan
  | inf, num b => if 0 < b then inf else if b < 0 then neginf else nan
  | num a, inf => if 0 < a then inf else if a < 0 then neginf else nan
  | neginf, num b => if 0 < b then neginf else if b < 0 then inf else nan
  | num a, neginf => if 0 < a then neginf else if a < 0 then inf else nan
  | inf, inf => inf
  | inf, neginf => neginf
  | neginf, inf => neginf
  | neginf, neginf => inf

theorem jmul_one (x : JsNum) : jmul x (num 1) = x := by
  cases x <;> simp [jmul]

end JsNum

/-- Association-list lookup, modelling JS property access `obj?.[key]`
(absent key, or absent object, is `none`). -/
def lookupStr {α : Type} (k : String) : List (String × α) → Option α
  | [] => none
  | (k2, v) :: rest => if k2 = k then some v else lookupStr k rest

/-- Model of JavaScript `String.prototype.toUpperCase` on the ASCII range
(currency codes and cache keys in this codebase are ASCII). -/
def jsUpChar (c : Char) : Char :=
  if 'a' ≤ c ∧ c ≤ 'z' then Char.ofNat (c.toNat - 32) else c

/-- Model of JS `s.toUpperCase()`. -/
def jsToUpper (s : String) : String := String.mk (s.data.map jsUpChar)

namespace Currency

open JsNum

/-- Embeds `defaultBaseCurrency` from `src/utils/currency.js`. -/
def defaultBaseCurrency : String := "USD"

/-- Embeds the inner helper `r(code)` of `convertAmount`
(`src/utils/currency.js:161-165`): `1` when `code` equals the (uppercased)
base, else the rates entry when it is a finite number, else NaN.  A table
entry that is a non-finite number is stored as that `JsNum`; an absent or
non-number entry is `none`. -/
def rateFor (rates : List (String × JsNum)) (b code : String) : JsNum :=
  if code = b then num 1
  else
    match lookupStr code rates with
    | some (num q) => num q
    | _ => nan

/-- Embeds `convertAmount(amount, from, to, rates, base)` from
`src/utils/currency.js:152-178`. -/
def convertAmount (amount : JsNum) (fromCode toCode : String)
    (rates : List (String × JsNum)) (base : String) : JsNum :=
  if ¬ amount.isFinite then nan
  else
    let f := jsToUpper fromCode
    let t := jsToUpper toCode
    let b := jsToUpper base
    if f = t then amount
    else
      let rf := rateFor rates b f
      let rt := rateFor rates b t
      if ¬ rf.isFinite ∨ ¬ rt.isFinite then nan
      else
        let inBase := if f = b then amount else jdiv amount rf
        if t = b then inBase else jmul inBase rt

end Currency

namespace Currency

theorem jsToUpper_USD : jsToUpper "USD" = "USD" := by decide

theorem jsToUpper_EUR : jsToUpper "EUR" = "EUR" := by decide

theorem rateFor_self (rates : List (String × JsNum)) (b : String) :
    rateFor rates b b = JsNum.num 1 := by
  simp [rateFor]

theorem rateFor_ne (rates : List (String × JsNum)) (b c : String) (h : c ≠ b) :
    rateFor rates b c =
      match lookupStr c rates with
      | some (JsNum.num q) => JsNum.num q
      | _ => JsNum.nan := by
  simp [rateFor, h]

end Currency

open Currency JsNum in
/-- C5: for all finite amount, every rates table (whether or not it contains
an entry for X), every base and every code X,
`convertAmount(amount, X, X, rates, base)` returns the amount unchanged; the
result does not depend on the rates table (no rate lookup is performed). -/
theorem c5_same_code_identity (a : ℚ) (X : String)
    (rates : List (String × JsNum)) (base : String) :
    convertAmount (num a) X X rates base = num a := by
  simp [convertAmount, JsNum.isFinite]

open Currency JsNum in
/-- C3: for every conversion request with distinct normalized from/to codes,
if the resolved rate of either endpoint is missing or non-finite
(`rateFor` yields NaN) the conversion returns the NaN sentinel; otherwise
the result is exactly the two-hop path through base:
`(amount if from == base else amount / rate(from))` multiplied by
`(1 if to == base else rate(to))`. -/
theorem c3_two_hop_through_base (a : ℚ) (fromCode toCode base : String)
    (rates : List (String × JsNum))
    (hft : jsToUpper fromCode ≠ jsToUpper toCode) :
    ((rateFor rates (jsToUpper base) (jsToUpper fromCode) = nan ∨
      rateFor rates (jsToUpper base) (jsToUpper toCode) = nan) →
      convertAmount (num a) fromCode toCode rates base = nan) ∧
    (∀ qf qt : ℚ,
      rateFor rates (jsToUpper base) (jsToUpper fromCode) = num qf →
      rateFor rates (jsToUpper base) (jsToUpper toCode) = num qt →
      convertAmount (num a) fromCode toCode rates base =
        jmul (if jsToUpper fromCode = jsToUpper base then num a
              else jdiv (num a) (num qf))
             (if jsToUpper toCode = jsToUpper base then num 1 else num qt)) := by
  constructor
  · intro h
    rcases h with h | h <;>
      simp [convertAmount, JsNum.isFinite, hft, h]
  · intro qf qt hf ht
    simp only [convertAmount, JsNum.isFinite, Bool.not_true, Bool.not_false,
      if_neg, hft, ite_false, ite_true, hf, ht]
    split
    · rename_i hguard
      simp [JsNum.isFinite] at hguard
    · by_cases htb : jsToUpper toCode = jsToUpper base
      · simp [htb, jmul_one]
      · simp [htb]

open Currency JsNum in
/-- Witness for C3 at a concrete input: base USD, from USD, to EUR with rate
entry EUR ↦ 2. -/
theorem c3_two_hop_through_base_witness :
    ((rateFor [("EUR", num 2)] (jsToUpper "USD") (jsToUpper "USD") = nan ∨
      rateFor [("EUR", num 2)] (jsToUpper "USD") (jsToUpper "EUR") = nan) →
      convertAmount (num 10) "USD" "EUR" [("EUR", num 2)] "USD" = nan) ∧
    (∀ qf qt : ℚ,
      rateFor [("EUR", num 2)] (jsToUpper "USD") (jsToUpper "USD") = num qf →
      rateFor [("EUR", num 2)] (jsToUpper "USD") (jsToUpper "EUR") = num qt →
      convertAmount (num 10) "USD" "EUR" [("EUR", num 2)] "USD" =
        jmul (if jsToUpper "USD" = jsToUpper "USD" then num 10
              else jdiv (num 10) (num qf))
             (if jsToUpper "EUR" = jsToUpper "USD" then num 1 else num qt)) :=
  c3_two_hop_through_base 10 "USD" "EUR" "USD" [("EUR", num 2)] (by decide)

open Currency JsNum in
/-- C6: round-trip through the base: for every finite amount and every rates
table whose EUR entry is a finite nonzero number, converting USD→EUR and then
EUR→USD with base USD returns exactly the amount (the composition is
`(amount * r) / r` in exact rational arithmetic). -/
theorem c6_round_trip_through_base (a r : ℚ) (rates : List (String × JsNum))
    (hlook : lookupStr "EUR" rates = some (num r)) (hr : r ≠ 0) :
    convertAmount (convertAmount (num a) "USD" "EUR" rates "USD")
      "EUR" "USD" rates "USD" = num a := by
  have h1 : convertAmount (num a) "USD" "EUR" rates "USD" = num (a * r) := by
    simp [convertAmount, JsNum.isFinite, jsToUpper_USD, jsToUpper_EUR,
      rateFor, hlook, jmul]
  rw [h1]
  simp [convertAmount, JsNum.isFinite, jsToUpper_USD, jsToUpper_EUR,
    rateFor, hlook, jdiv, hr]

open Currency JsNum in
/-- Witness for C6 at a concrete input: amount 5, EUR rate 2. -/
theorem c6_round_trip_through_base_witness :
    convertAmount (convertAmount (num 5) "USD" "EUR" [("EUR", num 2)] "USD")
      "EUR" "USD" [("EUR", num 2)] "USD" = num 5 :=
  c6_round_trip_through_base 5 2 [("EUR", num 2)] (by decide) (by decide)

open Currency JsNum in
/-- C9 counterexample: with rates `{EUR: 0}`, base USD, amount 1 (positive
and finite), from EUR and to GBP satisfy from ≠ to and from ≠ base, yet the
conversion returns the NaN sentinel (the guard on `rate(to)` fires because
GBP is missing), not positive Infinity as the claim states. -/
theorem c9_zero_rate_counterexample :
    convertAmount (num 1) "EUR" "GBP" [("EUR", num 0)] "USD" = nan ∧
      nan ≠ inf := by
  constructor
  · simp [convertAmount, rateFor, lookupStr, JsNum.isFinite, jsToUpper, jsUpChar]
  · intro h
    cases h

open Currency JsNum in
/-- C9 amended: the finiteness guard indeed does not exclude a zero rate,
provided the destination rate resolves to a finite positive number (in
particular when `to` is the base): with `rates[from] = 0`, from ≠ to and
from ≠ base, a positive finite amount reaches `amount / 0` and yields
positive Infinity, and amount 0 yields NaN — not the unconvertible
sentinel path. -/
theorem c9_zero_rate_amended (a qt : ℚ) (fromCode toCode base : String)
    (rates : List (String × JsNum))
    (hft : jsToUpper fromCode ≠ jsToUpper toCode)
    (hfb : jsToUpper fromCode ≠ jsToUpper base)
    (hf : lookupStr (jsToUpper fromCode) rates = some (num 0))
    (ht : rateFor rates (jsToUpper base) (jsToUpper toCode) = num qt)
    (hqt : 0 < qt) :
    (0 < a → convertAmount (num a) fromCode toCode rates base = inf) ∧
    (a = 0 → convertAmount (num a) fromCode toCode rates base = nan) := by
  have hrf : rateFor rates (jsToUpper base) (jsToUpper fromCode) = num 0 := by
    simp [rateFor, hfb, hf]
  constructor
  · intro ha
    by_cases htb : jsToUpper toCode = jsToUpper base
    · simp [convertAmount, JsNum.isFinite, hft, hfb, hrf, ht, jdiv, ha, htb,
        rateFor_self]
    · simp [convertAmount, JsNum.isFinite, hft, hfb, hrf, ht, jdiv, ha, htb,
        jmul, hqt]
  · intro ha
    subst ha
    by_cases htb : jsToUpper toCode = jsToUpper base
    · simp [convertAmount, JsNum.isFinite, hft, hfb, hrf, ht, jdiv, htb,
        rateFor_self]
    · simp [convertAmount, JsNum.isFinite, hft, hfb, hrf, ht, jdiv, htb, jmul]

open Currency JsNum in
/-- Witness for the amended C9 at a concrete input: amount 1 from EUR
(rate exactly 0) to the base USD yields positive Infinity. -/
theorem c9_zero_rate_amended_witness :
    (0 < (1 : ℚ) →
      convertAmount (num 1) "EUR" "USD" [("EUR", num 0)] "USD" = inf) ∧
    ((1 : ℚ) = 0 →
      convertAmount (num 1) "EUR" "USD" [("EUR", num 0)] "USD" = nan) :=
  c9_zero_rate_amended 1 1 "EUR" "USD" "USD" [("EUR", num 0)]
    (by decide) (by decide) (by decide) (by decide) (by decide)

/-- Characters removed by JS `String.prototype.trim` (the whitespace that
occurs in this codebase's configuration strings). -/
def jsIsWs (c : Char) : Bool := c = ' ' ∨ c = '\t' ∨ c = '\n' ∨ c = '\r'

/-- Model of JS `s.trim()`. -/
def jsTrim (s : String) : String :=
  String.mk (((s.data.dropWhile jsIsWs).reverse.dropWhile jsIsWs).reverse)

namespace Api

/-- Configuration environment consumed by `getBaseUrl`
(`src/config/env.js`); a variable that is unset or not a string is `none`. -/
structure Env where
  REACT_APP_API_BASE : Option String
  REACT_APP_BACKEND_URL : Option String

/-- Embeds the fixed public fallback `EXTERNAL_FALLBACK_BASE` from
`src/services/api.js:24`. -/
def EXTERNAL_FALLBACK_BASE : String := "https://api.exchangerate.host"

/-- Embeds `safeString(v)` from `src/services/api.js:61-63`, identical to
`str(v)` in `src/config/env.js:14-16`: the trimmed string when non-empty,
else absent. -/
def safeString (v : Option String) : Option String :=
  match v with
  | some s => if jsTrim s ≠ "" then some (jsTrim s) else none
  | none => none

/-- Embeds `getBaseUrl()` from `src/config/env.js:94-118`.  `windowOrigin`
models `window?.location?.origin`: `none` when `window` or the origin is
undefined, `some o` otherwise (an empty `o` is falsy in the JS guards). -/
def getBaseUrl (env : Env) (windowOrigin : Option String) : String :=
  match safeString env.REACT_APP_API_BASE with
  | some s => s
  | none =>
    match safeString env.REACT_APP_BACKEND_URL with
    | some s => s
    | none =>
      match windowOrigin with
      | some o => if o ≠ "" then o else "http://localhost"
      | none => "http://localhost"

/-- Embeds `stripTrailingSlash(s)` from `src/services/api.js:54-56`
(the regex `\/+$` removes every trailing slash). -/
def stripTrailingSlash (s : String) : String :=
  String.mk ((s.data.reverse.dropWhile (fun c => c = '/')).reverse)

/-- Embeds `resolveApiBase()` from `src/services/api.js:32-49`. -/
def resolveApiBase (env : Env) (windowOrigin : Option String) : String :=
  match safeString (some (getBaseUrl env windowOrigin)) with
  | none => EXTERNAL_FALLBACK_BASE
  | some envBase =>
    let currentOrigin : Option String :=
      match windowOrigin with
      | some o => if o ≠ "" then some o else none
      | none => none
    match currentOrigin with
    | some co =>
        if stripTrailingSlash envBase = stripTrailingSlash co then
          EXTERNAL_FALLBACK_BASE
        else envBase
    | none => envBase

end Api

open Api in
/-- C2 counterexample: with the primary URL `REACT_APP_API_BASE` set to the
non-empty string "http://localhost:3000" and the caller's origin equal to
that same URL, the resolved effective API base is the public fallback, not
the primary URL — the claim's "regardless of whether the primary URL matches
the caller's own origin" fails. -/
theorem c2_primary_counterexample :
    resolveApiBase
        { REACT_APP_API_BASE := some "http://localhost:3000",
          REACT_APP_BACKEND_URL := none }
        (some "http://localhost:3000") = "https://api.exchangerate.host" ∧
    "https://api.exchangerate.host" ≠ "http://localhost:3000" := by
  decide

open Api in
/-- C2 amended: when the primary backend URL is set to a non-empty (trimmed)
string, the resolved effective API base equals that primary URL — it wins
over the secondary URL and over the public fallback — provided the primary
URL does not equal the caller's own origin after trailing-slash stripping;
when it does equal the origin, the public fallback is substituted. -/
theorem c2_primary_wins_amended (env : Api.Env) (windowOrigin : Option String)
    (p : String) (hp : env.REACT_APP_API_BASE = some p)
    (htrim : jsTrim p = p) (hne : p ≠ "")
    (horig : ∀ o, windowOrigin = some o → o ≠ "" →
      stripTrailingSlash p ≠ stripTrailingSlash o) :
    resolveApiBase env windowOrigin = p := by
  have h1 : safeString env.REACT_APP_API_BASE = some p := by
    simp [safeString, hp, htrim, hne]
  have h2 : getBaseUrl env windowOrigin = p := by
    simp [getBaseUrl, h1]
  have h3 : safeString (some p) = some p := by
    simp [safeString, htrim, hne]
  cases hw : windowOrigin with
  | none =>
    subst hw
    simp [resolveApiBase, h2, h3]
  | some o =>
    subst hw
    by_cases ho : o = ""
    · subst ho
      simp [resolveApiBase, h2, h3]
    · simp [resolveApiBase, h2, h3, ho, horig o rfl ho]

open Api in
/-- Witness for the amended C2: a configured primary URL distinct from the
caller's origin wins over a configured secondary URL and the fallback. -/
theorem c2_primary_wins_amended_witness :
    resolveApiBase
        { REACT_APP_API_BASE := some "https://api.example.com",
          REACT_APP_BACKEND_URL := some "https://other.example.com" }
        (some "http://localhost:3000") = "https://api.example.com" :=
  c2_primary_wins_amended
    { REACT_APP_API_BASE := some "https://api.example.com",
      REACT_APP_BACKEND_URL := some "https://other.example.com" }
    (some "http://localhost:3000") "https://api.example.com" rfl
    (by decide) (by decide)
    (by
      intro o ho hne2
      cases ho
      decide)

/-- JS truthy-or on a string-valued expression: `v || w` where an absent or
empty string is falsy. -/
def orElseStr (v : Option String) (w : String) : String :=
  match v with
  | some s => if s ≠ "" then s else w
  | none => w

/-- Whether the first character list leads (starts) the second. -/
def leadsChars : List Char → List Char → Bool
  | [], _ => true
  | _ :: _, [] => false
  | a :: as, b :: bs => a == b && leadsChars as bs

/-- Whether the first character list occurs contiguously in the second. -/
def occursChars (sub : List Char) : List Char → Bool
  | [] => sub.isEmpty
  | c :: rest => leadsChars sub (c :: rest) || occursChars sub rest

/-- Model of JS `s.includes(sub)`. -/
def includesSubstr (s sub : String) : Bool := occursChars sub.data s.data

namespace Api

/-- A parsed JSON error body as `httpGet` inspects it
(`src/services/api.js:124-125`): its `message` and `error` fields when they
are strings (an empty string is falsy in the `||` chain) and the
`JSON.stringify` rendering of the whole body. -/
structure JsonErrorBody where
  message : Option String
  error : Option String
  stringified : String
deriving DecidableEq

/-- An HTTP response as observed by `httpGet` (`src/services/api.js:106-148`):
status, status text, the content-type header (`none` when absent), the result
of `res.json()` (`none` when parsing throws), the result of `res.text()`
(`none` when reading throws), and the message of the exception thrown by a
failing body read, used on the success path's re-wrap. -/
structure HttpResponse where
  status : Nat
  statusText : String
  contentType : Option String
  jsonBody : Option JsonErrorBody
  textBody : Option String
  readFailureMessage : String
deriving DecidableEq

/-- A JS `Error` value as the client builds them: `name`, `message`, the
`status`/`statusText` fields set on the status error
(`src/services/api.js:139-140`), the `code` field set on timeout errors
(`:152`), and the `cause` chain (`:157`). -/
inductive JsError where
  | mk (name message : String) (status : Option Nat) (statusText : Option String)
      (code : Option String) (cause : Option JsError)

/-- Name of a JS error value. -/
def JsError.name : JsError → String
  | mk n _ _ _ _ _ => n

/-- Message of a JS error value. -/
def JsError.message : JsError → String
  | mk _ m _ _ _ _ => m

/-- The numeric `status` field of a JS error value, absent when never set. -/
def JsError.status : JsError → Option Nat
  | mk _ _ s _ _ _ => s

/-- The `code` field of a JS error value. -/
def JsError.code : JsError → Option String
  | mk _ _ _ _ c _ => c

/-- The `cause` field of a JS error value. -/
def JsError.cause : JsError → Option JsError
  | mk _ _ _ _ _ c => c

/-- Embeds `const isJson = contentType.includes('application/json')` with
`contentType = res.headers.get('content-type') || ''`
(`src/services/api.js:116-117`). -/
def isJson (res : HttpResponse) : Bool :=
  includesSubstr (orElseStr res.contentType "") "application/json"

/-- Embeds the detail extraction of the non-ok branch
(`src/services/api.js:120-135`): for a JSON response the error body's
`message` or `error` field or its stringification (empty when parsing
throws); otherwise the raw text body (empty when reading throws). -/
def statusDetail (res : HttpResponse) : String :=
  if isJson res then
    match res.jsonBody with
    | some b => orElseStr b.message (orElseStr b.error b.stringified)
    | none => ""
  else
    match res.textBody with
    | some t => t
    | none => ""

/-- Embeds the status error message built at `src/services/api.js:136-138`:
`[api] Request failed: <status> <statusText>` with ` - <detail>` appended
when the detail is non-empty. -/
def statusErrorMessage (res : HttpResponse) : String :=
  "[api] Request failed: " ++ toString res.status ++ " " ++ res.statusText ++
    (if statusDetail res = "" then "" else " - " ++ statusDetail res)

/-- Embeds the catch block of `httpGet` (`src/services/api.js:149-158`):
an `AbortError` becomes the distinct timeout error (code `ETIMEDOUT`, no
cause); any other thrown value is wrapped in a new error whose message is
`[api] ` plus the original message (or `Unknown error`) and whose `cause`
is the original error.  The wrapper carries no `status` field. -/
def wrapCatch (err : JsError) : JsError :=
  if err.name = "AbortError" then
    JsError.mk "Error" "[api] Request timed out" none none (some "ETIMEDOUT") none
  else
    JsError.mk "Error" ("[api] " ++ orElseStr (some err.message) "Unknown error")
      none none none (some err)

/-- Embeds `httpGet` (`src/services/api.js:85-162`) from the point where a
response has been received (fetch resolving; network failures and aborts are
outside this response model).  The status error thrown at `:141` is thrown
inside the `try` block, so it is caught by the catch at `:149` and re-wrapped
by `wrapCatch` before it propagates; likewise a body-read failure on the
success path. -/
def httpGet (res : HttpResponse) : Except JsError (Sum JsonErrorBody String) :=
  if ¬ (200 ≤ res.status ∧ res.status ≤ 299) then
    Except.error (wrapCatch
      (JsError.mk "Error" (statusErrorMessage res) (some res.status)
        (some res.statusText) none none))
  else if isJson res then
    match res.jsonBody with
    | some b => Except.ok (Sum.inl b)
    | none =>
      Except.error (wrapCatch
        (JsError.mk "SyntaxError" res.readFailureMessage none none none none))
  else
    match res.textBody with
    | some t => Except.ok (Sum.inr t)
    | none =>
      Except.error (wrapCatch
        (JsError.mk "TypeError" res.readFailureMessage none none none none))

theorem statusErrorMessage_ne_empty (res : HttpResponse) :
    statusErrorMessage res ≠ "" := by
  intro h
  have h2 := congrArg String.data h
  simp [statusErrorMessage, String.data_append] at h2

end Api

open Api in
/-- C4 counterexample: for the non-2xx response `404 Not Found` with plain
text body "missing", the error value that propagates to the caller is the
catch-block wrapper: its own `status` field is absent (`none`), not the
numeric 404 the claim says it carries; the 404 lives only on its `cause`. -/
theorem c4_status_counterexample :
    Api.httpGet
        { status := 404, statusText := "Not Found", contentType := none,
          jsonBody := none, textBody := some "missing",
          readFailureMessage := "" } =
      Except.error (JsError.mk "Error"
        "[api] [api] Request failed: 404 Not Found - missing" none none none
        (some (JsError.mk "Error"
          "[api] Request failed: 404 Not Found - missing"
          (some 404) (some "Not Found") none none))) ∧
    JsError.status (JsError.mk "Error"
        "[api] [api] Request failed: 404 Not Found - missing" none none none
        (some (JsError.mk "Error"
          "[api] Request failed: 404 Not Found - missing"
          (some 404) (some "Not Found") none none))) = none := by
  exact ⟨rfl, rfl⟩

open Api in
/-- C4 amended: for every response with a non-success (non-2xx) status, the
client rejects with a wrapper error that itself carries no `status` field;
its `cause` is the status error carrying the numeric status code and the
message `[api] Request failed: <status> <statusText>` plus the best-effort
detail (JSON body's message/error field, its stringification, the raw text
body, or omitted when unavailable), and the wrapper's message prepends
`[api] ` to that message. -/
theorem c4_status_error_amended (res : Api.HttpResponse)
    (h : ¬ (200 ≤ res.status ∧ res.status ≤ 299)) :
    ∃ e, Api.httpGet res = Except.error e ∧
      JsError.status e = none ∧
      JsError.message e = "[api] " ++ statusErrorMessage res ∧
      ∃ c, JsError.cause e = some c ∧
        JsError.status c = some res.status ∧
        JsError.message c =
          "[api] Request failed: " ++ toString res.status ++ " " ++
            res.statusText ++
            (if statusDetail res = "" then "" else " - " ++ statusDetail res) := by
  refine ⟨wrapCatch (JsError.mk "Error" (statusErrorMessage res)
      (some res.status) (some res.statusText) none none), ?_, ?_, ?_, ?_⟩
  · simp [Api.httpGet, h]
  · simp [wrapCatch, JsError.name, JsError.status]
  · simp [wrapCatch, JsError.name, JsError.message, orElseStr,
      statusErrorMessage_ne_empty res]
  · refine ⟨JsError.mk "Error" (statusErrorMessage res) (some res.status)
      (some res.statusText) none none, ?_, rfl, rfl⟩
    simp [wrapCatch, JsError.name, JsError.cause]

open Api in
/-- Witness for the amended C4 at a concrete 503 response with a JSON
error body whose `error` field supplies the detail. -/
theorem c4_status_error_amended_witness :
    ∃ e,
      Api.httpGet
          { status := 503, statusText := "Service Unavailable",
            contentType := some "application/json; charset=utf-8",
            jsonBody := some { message := none, error := some "down",
                               stringified := "{}" },
            textBody := none, readFailureMessage := "" } =
        Except.error e ∧
      JsError.status e = none ∧
      JsError.message e = "[api] " ++ statusErrorMessage
          { status := 503, statusText := "Service Unavailable",
            contentType := some "application/json; charset=utf-8",
            jsonBody := some { message := none, error := some "down",
                               stringified := "{}" },
            textBody := none, readFailureMessage := "" } ∧
      ∃ c, JsError.cause e = some c ∧
        JsError.status c = some 503 ∧
        JsError.message c =
          "[api] Request failed: " ++ toString (503 : Nat) ++ " " ++
            "Service Unavailable" ++
            (if statusDetail
                { status := 503, statusText := "Service Unavailable",
                  contentType := some "application/json; charset=utf-8",
                  jsonBody := some { message := none, error := some "down",
                                     stringified := "{}" },
                  textBody := none, readFailureMessage := "" } = "" then ""
             else " - " ++ statusDetail
                { status := 503, statusText := "Service Unavailable",
                  contentType := some "application/json; charset=utf-8",
                  jsonBody := some { message := none, error := some "down",
                                     stringified := "{}" },
                  textBody := none, readFailureMessage := "" }) :=
  c4_status_error_amended
    { status := 503, statusText := "Service Unavailable",
      contentType := some "application/json; charset=utf-8",
      jsonBody := some { message := none, error := some "down",
                         stringified := "{}" },
      textBody := none, readFailureMessage := "" }
    (by decide)

namespace Hook

open JsNum

/-- A currency symbol entry `{ code, description }` as stored in the
symbols map (`src/hooks/useDailyRates.js` storage schema). -/
structure SymbolInfo where
  code : String
  description : String
deriving DecidableEq

/-- A rates payload as persisted and exposed by `useDailyRates`
(storage schema at `src/hooks/useDailyRates.js:9-17`); `date` and
`lastUpdated` may be absent in a parsed value. -/
structure Payload where
  base : String
  date : Option String
  rates : List (String × JsNum)
  symbols : List (String × SymbolInfo)
  lastUpdated : Option Int
deriving DecidableEq

/-- Embeds `TTL_MS` (`src/hooks/useDailyRates.js:22`): 24 hours in ms. -/
def TTL_MS : Int := 24 * 60 * 60 * 1000

/-- Embeds `cacheKey(base)` (`src/hooks/useDailyRates.js:39-41`): the cache
key derived from the (falsy-defaulted, uppercased) base. -/
def cacheKey (base : String) : String :=
  "cc_hub_daily_payload_v1::" ++ jsToUpper (if base = "" then "USD" else base)

/-- Embeds `isFresh(ts)` (`src/hooks/useDailyRates.js:46-49`): false when the
timestamp is absent, not a number, or falsy (0); otherwise
`Date.now() - ts < TTL_MS`. -/
def isFresh (now : Int) (ts : Option Int) : Bool :=
  match ts with
  | none => false
  | some t => if t = 0 then false else decide (now - t < TTL_MS)

/-- A raw localStorage value: a string that JSON-parses to a (truthy)
payload object, or one whose parse fails or yields a falsy value. -/
inductive RawStored where
  | parseable (p : Payload)
  | garbage
deriving DecidableEq

/-- Embeds `safeParse` (`src/hooks/useDailyRates.js:27-34`) combined with the
truthiness check `data && ...` at `:78`. -/
def safeParse : RawStored → Option Payload
  | RawStored.parseable p => some p
  | RawStored.garbage => none

/-- Embeds `loadCache(base)` (`src/hooks/useDailyRates.js:73-85`) over a
localStorage snapshot: the stored payload under the base's key when it
parses successfully and its `lastUpdated` is fresh, else absence — a parse
failure or staleness is never raised as an error (and a throwing storage
read is the absent key). -/
def loadCache (now : Int) (store : List (String × RawStored)) (base : String) :
    Option Payload :=
  match lookupStr (cacheKey base) store with
  | some raw =>
    match safeParse raw with
    | some d => if isFresh now d.lastUpdated then some d else none
    | none => none
  | none => none

/-- Embeds `saveCache(base, payload)` (`src/hooks/useDailyRates.js:54-68`)
when persistence succeeds: stores the payload re-stamped with the current
time under the base's key.  (A failing write leaves the store unchanged and
never affects caller control flow.) -/
def saveCache (now : Int) (store : List (String × RawStored)) (base : String)
    (p : Payload) : List (String × RawStored) :=
  (cacheKey base,
    RawStored.parseable
      { base := p.base
        date := p.date
        rates := p.rates
        symbols := p.symbols
        lastUpdated := some now }) :: store

/-- The controller state of `useDailyRates`: the React state fields
(`src/hooks/useDailyRates.js:108-116`), the `loadingRef`/`mountedRef` refs
(`:119-120`), the in-flight fetch request (the base captured when it was
issued, absent when none), a counter of issued network rounds, and the
localStorage snapshot. -/
structure HookState where
  base : String
  rates : List (String × JsNum)
  symbols : List (String × SymbolInfo)
  date : Option String
  lastUpdated : Option Int
  loading : Bool
  error : Option String
  loadingRef : Bool
  mountedRef : Bool
  pendingBase : Option String
  netRounds : Nat
  store : List (String × RawStored)
deriving DecidableEq

/-- Embeds `applyPayload` (`src/hooks/useDailyRates.js:129-135`): a no-op
when unmounted, otherwise it overwrites rates/symbols/date/lastUpdated —
without comparing the payload's base against the current one. -/
def applyPayload (now : Int) (p : Payload) (s : HookState) : HookState :=
  if ¬ s.mountedRef then s
  else
    { s with
      rates := p.rates
      symbols := p.symbols
      date := p.date
      lastUpdated := some (match p.lastUpdated with
        | some t => if t = 0 then now else t
        | none => now) }

/-- Embeds the synchronous prefix of `load(opts)`
(`src/hooks/useDailyRates.js:158-181`) up to its first await: the
single-flight guard on `loadingRef`, the loading/error reset, the cache
fast path, and otherwise the start of the concurrent dual fetch (recorded
as a new network round tagged with the captured base `b`). -/
def startLoad (now : Int) (force disableCache : Bool) (s : HookState) :
    HookState :=
  if s.loadingRef then s
  else
    let s1 := { s with loadingRef := true, loading := true, error := none }
    if ¬ force ∧ ¬ disableCache then
      match loadCache now s1.store s1.base with
      | some cached =>
        let s2 := applyPayload now cached s1
        { s2 with loading := false, loadingRef := false }
      | none =>
        { s1 with pendingBase := some s1.base, netRounds := s1.netRounds + 1 }
    else
      { s1 with pendingBase := some s1.base, netRounds := s1.netRounds + 1 }

/-- Embeds `refresh()` (`src/hooks/useDailyRates.js:204-207`):
`load({force: true})`. -/
def refresh (now : Int) (disableCache : Bool) (s : HookState) : HookState :=
  startLoad now true disableCache s

/-- Embeds a change of the selected base while the hook stays mounted: the
options-sync effect (`src/hooks/useDailyRates.js:123-127`) runs `setBase`,
then the effect on `[base, load]` (`:195-201`) re-runs synchronously — its
cleanup sets `mountedRef` to false, the new run sets it back to true and
invokes `load({force: false})`. -/
def changeBase (now : Int) (b2 : String) (disableCache : Bool)
    (s : HookState) : HookState :=
  let s1 := { s with base := jsToUpper (if b2 = "" then "USD" else b2) }
  let s2 := { s1 with mountedRef := false }
  let s3 := { s2 with mountedRef := true }
  startLoad now false disableCache s3

/-- Embeds the completion of the in-flight fetch: the tail of `fetchFresh`
(`src/hooks/useDailyRates.js:144-155`) — merging the two normalized
responses, stamping `lastUpdated`, the best-effort cache write keyed by the
requested base — followed by the remainder of `load` (`:180-189`):
`applyPayload` (guarded only by `mountedRef`, not by the request's base)
and the finally block.  `serverBase` models `ratesData?.base`. -/
def resolveFetch (now : Int) (serverBase serverDate : Option String)
    (serverRates : List (String × JsNum))
    (serverSymbols : List (String × SymbolInfo)) (s : HookState) : HookState :=
  match s.pendingBase with
  | none => s
  | some b =>
    let merged : Payload :=
      { base := match serverBase with
          | some sb => if sb = "" then b else sb
          | none => b
        date := serverDate
        rates := serverRates
        symbols := serverSymbols
        lastUpdated := some now }
    let s1 := { s with store := saveCache now s.store b merged }
    let s2 := applyPayload now merged s1
    let s3 := if s2.mountedRef then { s2 with loading := false } else s2
    { s3 with loadingRef := false, pendingBase := none }

/-- The hook state right after mount with base USD and empty storage:
`mountedRef` set by the mount effect, all data state at its `useState`
initial values (`src/hooks/useDailyRates.js:108-120`). -/
def initialState : HookState :=
  { base := "USD"
    rates := []
    symbols := []
    date := none
    lastUpdated := none
    loading := true
    error := none
    loadingRef := false
    mountedRef := true
    pendingBase := none
    netRounds := 0
    store := [] }

/-- The C1 interleaving: the mount `load(force=false)` misses the empty
cache and starts a fetch for USD; the base is switched to EUR while that
fetch is outstanding (the effect re-run's `load` is silenced by the
single-flight guard); then the stale USD fetch resolves. -/
def staleOverwriteTrace : HookState :=
  resolveFetch 2 (some "USD") (some "2024-01-01")
    [("EUR", JsNum.num (9/10)), ("GBP", JsNum.num (4/5))]
    [("EUR", SymbolInfo.mk "EUR" "Euro")]
    (changeBase 1 "EUR" false (startLoad 0 false false initialState))

/-- A controller state with a load outstanding (`loadingRef` set). -/
def busyState : HookState :=
  { base := "USD"
    rates := []
    symbols := []
    date := none
    lastUpdated := none
    loading := true
    error := none
    loadingRef := true
    mountedRef := true
    pendingBase := some "USD"
    netRounds := 1
    store := [] }

end Hook

open Hook JsNum in
/-- C1 (violated by the code — evaluation at the failing interleaving):
`load` for base USD is outstanding when the base changes to EUR; the effect
re-run's fresh `load(force=false)` is silenced by the single-flight guard
(`loadingRef`), and when the stale USD fetch completes, `applyPayload`
(which never compares the payload's base) overwrites the state: the exposed
view ends with base EUR but the USD fetch's rates and symbols, not loading,
with no EUR fetch ever issued (one network round in total). -/
theorem c1_stale_base_overwrite : staleOverwriteTrace.base = "EUR" ∧
    staleOverwriteTrace.rates = [("EUR", num (9/10)), ("GBP", num (4/5))] ∧
    staleOverwriteTrace.symbols = [("EUR", SymbolInfo.mk "EUR" "Euro")] ∧
    staleOverwriteTrace.loading = false ∧
    staleOverwriteTrace.pendingBase = none ∧
    staleOverwriteTrace.netRounds = 1 :=
  ⟨rfl, rfl, rfl, rfl, rfl, rfl⟩

open Hook in
/-- C8: single-flight.  While a load is outstanding (`loadingRef` set), any
second `load`/`refresh` invocation is a no-op: the state — including the
network-round counter and the in-flight request — is unchanged.
Consequently two `refresh()` calls in rapid succession from an idle state
issue exactly one network round. -/
theorem c8_single_flight :
    (∀ (now : Int) (force disableCache : Bool) (s : HookState),
      s.loadingRef = true → startLoad now force disableCache s = s) ∧
    (∀ (now1 now2 : Int) (disableCache : Bool) (s : HookState),
      s.loadingRef = false →
        (refresh now2 disableCache (refresh now1 disableCache s)).netRounds =
          s.netRounds + 1) := by
  constructor
  · intro now force disableCache s h
    simp [startLoad, h]
  · intro now1 now2 disableCache s h
    simp [refresh, startLoad, h]

open Hook in
/-- Witness for C8: a concrete busy state is left untouched by a second
load, and a concrete double refresh from the freshly mounted state performs
exactly one network round. -/
theorem c8_single_flight_witness :
    startLoad 5 true false busyState = busyState ∧
    (refresh 6 false (refresh 5 false initialState)).netRounds =
      initialState.netRounds + 1 :=
  ⟨c8_single_flight.1 5 true false busyState rfl,
   c8_single_flight.2 5 6 false initialState rfl⟩

open Hook in
/-- C7: cache read semantics.  A read only ever returns a stored payload
that parsed successfully and whose `lastUpdated` is fresh; an entry written
at a (positive clock) time t0 is returned when read at t0 + TTL − 1 ms and
treated as absent at t0 + TTL + 1 ms; parse failure or staleness is absence
(the model's read is total — nothing is raised). -/
theorem c7_cache_read_ttl (now t0 : Int) (store : List (String × RawStored))
    (base : String) (p : Payload) (h0 : 0 < t0) :
    (∀ d, loadCache now store base = some d →
      ∃ raw, lookupStr (cacheKey base) store = some raw ∧
        safeParse raw = some d ∧ isFresh now d.lastUpdated = true) ∧
    loadCache (t0 + TTL_MS - 1) (saveCache t0 store base p) base =
      some { base := p.base
             date := p.date
             rates := p.rates
             symbols := p.symbols
             lastUpdated := some t0 } ∧
    loadCache (t0 + TTL_MS + 1) (saveCache t0 store base p) base = none := by
  have ht0 : t0 ≠ 0 := by omega
  refine ⟨?_, ?_, ?_⟩
  · intro d hd
    unfold loadCache at hd
    cases hraw : lookupStr (cacheKey base) store with
    | none => simp [hraw] at hd
    | some raw =>
      simp only [hraw] at hd
      cases hparse : safeParse raw with
      | none => simp [hparse] at hd
      | some d2 =>
        simp only [hparse] at hd
        by_cases hf : isFresh now d2.lastUpdated = true
        · rw [if_pos hf] at hd
          injection hd with h2
          subst h2
          exact ⟨raw, rfl, hparse, hf⟩
        · rw [if_neg hf] at hd
          cases hd
  · simp [loadCache, saveCache, lookupStr, safeParse, isFresh, TTL_MS, ht0]
    omega
  · simp [loadCache, saveCache, lookupStr, safeParse, isFresh, TTL_MS, ht0]
    omega

open Hook in
/-- Witness for C7 at a concrete clock (t0 = 100) and payload. -/
theorem c7_cache_read_ttl_witness :
    (∀ d, loadCache 50 [] "USD" = some d →
      ∃ raw, lookupStr (cacheKey "USD") [] = some raw ∧
        safeParse raw = some d ∧ isFresh 50 d.lastUpdated = true) ∧
    loadCache (100 + TTL_MS - 1)
        (saveCache 100 [] "USD"
          { base := "USD"
            date := none
            rates := []
            symbols := []
            lastUpdated := none }) "USD" =
      some { base := "USD"
             date := none
             rates := []
             symbols := []
             lastUpdated := some 100 } ∧
    loadCache (100 + TTL_MS + 1)
        (saveCache 100 [] "USD"
          { base := "USD"
            date := none
            rates := []
            symbols := []
            lastUpdated := none }) "USD" = none :=
  c7_cache_read_ttl 50 100 [] "USD"
    { base := "USD"
      date := none
      rates := []
      symbols := []
      lastUpdated := none } (by decide)

open Hook in
/-- C10: the freshness test has no lower bound on the timestamp: a parseable
cached entry whose `lastUpdated` lies strictly in the future of a
(non-negative) reading clock satisfies now − lastUpdated < 0 < TTL, so it is
treated as fresh and returned by the cache read. -/
theorem c10_future_timestamp_fresh (now ts : Int)
    (store : List (String × RawStored)) (base : String) (d : Payload)
    (hnow : 0 ≤ now) (hts : now < ts)
    (hstore : lookupStr (cacheKey base) store = some (RawStored.parseable d))
    (hlu : d.lastUpdated = some ts) :
    isFresh now d.lastUpdated = true ∧ loadCache now store base = some d := by
  have hts0 : ts ≠ 0 := by omega
  have hfresh : isFresh now d.lastUpdated = true := by
    simp [isFresh, hlu, hts0, TTL_MS]
    omega
  exact ⟨hfresh, by simp [loadCache, hstore, safeParse, hfresh]⟩

open Hook in
/-- Witness for C10: an entry stamped 10 minutes ahead of the clock is
returned as fresh. -/
theorem c10_future_timestamp_fresh_witness :
    isFresh 1000
        (Payload.lastUpdated
          { base := "USD"
            date := none
            rates := []
            symbols := []
            lastUpdated := some 601000 }) = true ∧
    loadCache 1000
        [(cacheKey "USD", RawStored.parseable
          { base := "USD"
            date := none
            rates := []
            symbols := []
            lastUpdated := some 601000 })] "USD" =
      some { base := "USD"
             date := none
             rates := []
             symbols := []
             lastUpdated := some 601000 } :=
  c10_future_timestamp_fresh 1000 601000
    [(cacheKey "USD", RawStored.parseable
      { base := "USD"
        date := none
        rates := []
        symbols := []
        lastUpdated := some 601000 })] "USD"
    { base := "USD"
      date := none
      rates := []
      symbols := []
      lastUpdated := some 601000 }
    (by decide) (by decide) (by simp [lookupStr]) rfl
